import Mathlib

/-!
Verification of the `LifeHistory` domain module (src/src/domain/LifeHistory.ts).

The module builds a decades → years → months → events calendar structure
spanning a person's life from a birth date to birth date + 80 years
(`LifeHistory.initiate`), and relocates an event from one month to another
with date normalization (`LifeHistory.moveEvent`).

The embedding below is a direct translation of the TypeScript source:
  * machine numbers are `Nat` (all quantities involved are non-negative
    calendar years / months / indices; `Math.floor(n / 10)` on a
    non-negative number is `Nat` division);
  * `Array.from({length: n}, (_, i) => f i)` is `(List.range n).map f`;
    where the source computes a length as `hi - lo + 1` (which in JS is
    negative, hence an empty array, when `lo > hi + 1`) we write
    `hi + 1 - lo`, whose `Nat` truncation matches the JS clamping;
  * the `dayjs` date collaborator is modelled for the well-formed inputs
    the module feeds it: parsing a "YYYY-MM-DD" string yields its year and
    (1-based) month, formatting `year`/`month` as "YYYY-MM" zero-pads, and
    parsing a canonical "YYYY-MM" month id plus "-15" and re-formatting as
    "YYYY-MM-DD" appends "-15";
  * the ambient impure services (`crypto.randomUUID()` and the current
    time `dayjs().format()`) are threaded as explicit parameters
    (`genId`, `now`);
  * the TypeScript union `LifeHistoryTextEvent | LifeHistoryImageEvent`
    (structural typing: each variant may or may not carry `event_text` /
    `event_image`) is a record with the two discriminating fields optional.
-/

/-- Zero-pad a month number to two digits (dayjs "MM"). -/
def pad2 (n : Nat) : String :=
  if n < 10 then "0" ++ toString n else toString n

/-- Zero-pad a year number to four digits (dayjs "YYYY"). -/
def pad4 (n : Nat) : String :=
  if n < 10 then "000" ++ toString n
  else if n < 100 then "00" ++ toString n
  else if n < 1000 then "0" ++ toString n
  else toString n

/-- Models the dayjs collaborator: `dayjs(`${year}-${month}-01`).format("YYYY-MM")`
for a month number 1–12 produces the zero-padded "YYYY-MM" string. -/
def formatYYYYMM (year month : Nat) : String :=
  pad4 year ++ "-" ++ pad2 month

/-- Digits of a decimal numeral to the number they denote. -/
def natOfDigits (cs : List Char) : Nat :=
  cs.foldl (fun a c => a * 10 + (c.toNat - 48)) 0

/-- Models the dayjs collaborator on a well-formed "YYYY-MM-DD" birth-date
string: `dayjs(s).year()` is the first dash-separated field and
`dayjs(s).month() + 1` the second (dayjs months are 0-indexed; the source
adds 1 back). -/
def parseBirthDate (s : String) : Nat × Nat :=
  match s.data.splitOn '-' with
  | y :: m :: _ => (natOfDigits y, natOfDigits m)
  | _ => (0, 0)

/-- Models the dayjs round trip in `moveEvent`:
`dayjs(month.id + "-15").format("YYYY-MM-DD")` on a canonical "YYYY-MM"
month id appends "-15". -/
def formatTargetDate (monthId : String) : String :=
  monthId ++ "-15"

/-- JS truthiness of a string: `Boolean(s)` is false exactly for `""`. -/
def jsStringTruthy (s : String) : Bool :=
  decide (s ≠ "")

/-- The value space of the TS union `LifeHistoryTextEvent | LifeHistoryImageEvent`:
`{ id, event_date, updated_at, user_id }` plus the two optional
discriminating fields. -/
structure LifeHistoryEvent where
  id : String
  event_date : String
  event_text : Option String
  event_image : Option String
  updated_at : String
  user_id : String
  deriving DecidableEq

/-- `isLifeHistoryTextEvent`: `"event_text" in event && Boolean(event.event_text)`. -/
def isLifeHistoryTextEvent (event : LifeHistoryEvent) : Bool :=
  match event.event_text with
  | some s => jsStringTruthy s
  | none => false

/-- `isLifeHistoryImageEvent`: `"event_image" in event && Boolean(event.event_image)`. -/
def isLifeHistoryImageEvent (event : LifeHistoryEvent) : Bool :=
  match event.event_image with
  | some s => jsStringTruthy s
  | none => false

/-- `LifeHistoryMonth`. (`month` is `Nat` here; the TS refinement type
`LifeHistoryMonthNumber` just restricts it to 1–12.) -/
structure LifeHistoryMonth where
  id : String
  month : Nat
  events : List LifeHistoryEvent
  deriving DecidableEq

/-- `LifeHistoryYear`. -/
structure LifeHistoryYear where
  id : String
  year : Nat
  months : List LifeHistoryMonth
  deriving DecidableEq

/-- `LifeHistoryDecade`. -/
structure LifeHistoryDecade where
  id : String
  decade : Nat
  years : List LifeHistoryYear
  deriving DecidableEq

/-- `MonthlyLifeHistory = LifeHistoryDecade[]`. -/
abbrev MonthlyLifeHistory := List LifeHistoryDecade

/-- The month object built in the innermost `Array.from` of `initiate`:
id "YYYY-MM", the month number, and the single placeholder event whose
`event_text` is the stringified zero-based index of the month within its
year's month list. -/
def mkMonth (genId : Nat → Nat → String) (now : String)
    (year month monthIndex : Nat) : LifeHistoryMonth :=
  { id := formatYYYYMM year month
    month := month
    events := [{ id := genId year month
                 event_date := formatYYYYMM year month ++ "-15"
                 event_text := some (toString monthIndex)
                 event_image := none
                 updated_at := now
                 user_id := "string" }] }

/-- The year object built in the middle `Array.from` of `initiate`:
`startMonth = 1` / `endMonth = 12`, overridden at the birth year and at
`birthYear + 80` (where `birthMonth - 1 || 12` wraps January to December). -/
def mkYear (genId : Nat → Nat → String) (now : String)
    (birthYear birthMonth year : Nat) : LifeHistoryYear :=
  let startMonth := if year = birthYear then birthMonth else 1
  let endMonth :=
    if year = birthYear + 80 then
      (if birthMonth - 1 = 0 then 12 else birthMonth - 1)
    else 12
  { id := "year-" ++ toString year
    year := year
    months := (List.range (endMonth + 1 - startMonth)).map
      (fun monthIndex => mkMonth genId now year (startMonth + monthIndex) monthIndex) }

/-- The decade object built in the outer `Array.from` of `initiate`:
absolute decade number in the id, 1-based sequential position in `decade`,
and the intersection of the decade's ten years with `[birthYear, maxYear]`. -/
def mkDecade (genId : Nat → Nat → String) (now : String)
    (birthYear birthMonth decadeIndex : Nat) : LifeHistoryDecade :=
  let decade := birthYear / 10 + decadeIndex
  let decadeStartYear := decade * 10
  let decadeEndYear := decadeStartYear + 9
  let startYearInDecade := max birthYear decadeStartYear
  let endYearInDecade := min (birthYear + 80) decadeEndYear
  { id := "decade-" ++ toString decade
    decade := decadeIndex + 1
    years := (List.range (endYearInDecade + 1 - startYearInDecade)).map
      (fun yearIndex => mkYear genId now birthYear birthMonth (startYearInDecade + yearIndex)) }

/-- The body of `initiate` after the birth date has been parsed into
`birthYear` and `birthMonth` (1–12): one decade per value in
`floor(birthYear/10) .. floor((birthYear+80)/10)`. -/
def initiateFrom (genId : Nat → Nat → String) (now : String)
    (birthYear birthMonth : Nat) : MonthlyLifeHistory :=
  (List.range ((birthYear + 80) / 10 + 1 - birthYear / 10)).map
    (mkDecade genId now birthYear birthMonth)

namespace LifeHistory

/-- `LifeHistory.initiate(birthDate: string | null = null)`: the
`if (!birthDate) return []` guard is a JS truthiness test, so both `null`
and `""` yield the empty structure; otherwise the birth date is parsed by
the dayjs collaborator and the structure is built. -/
def initiate (genId : Nat → Nat → String) (now : String)
    (birthDate : Option String) : MonthlyLifeHistory :=
  match birthDate with
  | none => []
  | some s =>
    if s = "" then []
    else initiateFrom genId now (parseBirthDate s).1 (parseBirthDate s).2

end LifeHistory

/-- Innermost loop of `findEntities`: first month of the list whose id
matches. -/
def findMonthIn (months : List LifeHistoryMonth) (i : String) :
    Option LifeHistoryMonth :=
  months.find? (fun m => decide (m.id = i))

/-- Middle loop of `findEntities`: first (year, month) pair whose month id
matches. -/
def findInYears (years : List LifeHistoryYear) (i : String) :
    Option (LifeHistoryYear × LifeHistoryMonth) :=
  match years with
  | [] => none
  | y :: rest =>
    match findMonthIn y.months i with
    | some m => some (y, m)
    | none => findInYears rest i

/-- The `findEntities` closure of `moveEvent`: exhaustive search
decade → year → month for the first month whose `id` matches, returning
the owning triple, `none` when absent. -/
def findEntities (lifeHistory : MonthlyLifeHistory) (i : String) :
    Option (LifeHistoryDecade × LifeHistoryYear × LifeHistoryMonth) :=
  match lifeHistory with
  | [] => none
  | d :: rest =>
    match findInYears d.years i with
    | some (y, m) => some (d, y, m)
    | none => findEntities rest i

/-- One month of the per-month branch of `moveEvent`'s structural maps:
`if (month.id !== mId) return month;` else replace the event list by
`g` of it (`g` is the filter step at the source, the append step at the
target). -/
def updateMonth (mId : String) (g : List LifeHistoryEvent → List LifeHistoryEvent)
    (m : LifeHistoryMonth) : LifeHistoryMonth :=
  if m.id ≠ mId then m else { m with events := g m.events }

/-- One year of `moveEvent`'s structural maps:
`if (year.id !== yId) return year;` else rebuild the months. -/
def updateYear (yId mId : String) (g : List LifeHistoryEvent → List LifeHistoryEvent)
    (y : LifeHistoryYear) : LifeHistoryYear :=
  if y.id ≠ yId then y else { y with months := y.months.map (updateMonth mId g) }

/-- One decade of `moveEvent`'s structural maps:
`if (decade.id !== dId) return decade;` else rebuild the years. -/
def updateDecade (dId yId mId : String) (g : List LifeHistoryEvent → List LifeHistoryEvent)
    (d : LifeHistoryDecade) : LifeHistoryDecade :=
  if d.id ≠ dId then d else { d with years := d.years.map (updateYear yId mId g) }

/-- One of the two `lifeHistory.map(...)` passes of `moveEvent`, lifted
over the addressed (decade id, year id, month id) path and the event-list
transformation `g`. -/
def updateMonthEvents (dId yId mId : String)
    (g : List LifeHistoryEvent → List LifeHistoryEvent)
    (lifeHistory : MonthlyLifeHistory) : MonthlyLifeHistory :=
  lifeHistory.map (updateDecade dId yId mId g)

namespace LifeHistory

/-- `LifeHistory.moveEvent({event, lifeHistory, sourceMonth, targetMonth})`:
look up both month ids; on either miss, or when the source month holds no
event with the given id, log and return the input unchanged; otherwise
remove the event (by id) from the source month and append a copy with
re-derived `event_date` and fresh `updated_at` to the target month. -/
def moveEvent (now : String) (event : LifeHistoryEvent)
    (lifeHistory : MonthlyLifeHistory)
    (sourceMonth targetMonth : LifeHistoryMonth) : MonthlyLifeHistory :=
  let eventId := event.id
  let idMonthSource := sourceMonth.id
  let idMonthTarget := targetMonth.id
  match findEntities lifeHistory idMonthSource,
        findEntities lifeHistory idMonthTarget with
  | some sourceEntities, some targetEntities =>
    match sourceEntities.2.2.events.find? (fun e => decide (e.id = eventId)) with
    | none => lifeHistory
    | some eventToMove =>
      let updatedEvent : LifeHistoryEvent :=
        { eventToMove with
          event_date := formatTargetDate targetEntities.2.2.id
          updated_at := now }
      let updatedLifeHistory :=
        updateMonthEvents sourceEntities.1.id sourceEntities.2.1.id idMonthSource
          (fun evs => evs.filter (fun e => decide (e.id ≠ eventId))) lifeHistory
      updateMonthEvents targetEntities.1.id targetEntities.2.1.id idMonthTarget
        (fun evs => evs ++ [updatedEvent]) updatedLifeHistory
  | _, _ => lifeHistory

end LifeHistory

/-- Total number of month nodes in a structure. -/
def countMonths (lh : MonthlyLifeHistory) : Nat :=
  ((lh.flatMap (fun d => d.years)).map (fun y => y.months.length)).sum

/-- The event list of the month a given id locates (via `findEntities`,
the sole lookup `moveEvent` uses). -/
def monthEvents (lh : MonthlyLifeHistory) (i : String) :
    Option (List LifeHistoryEvent) :=
  (findEntities lh i).map (fun t => t.2.2.events)

/-- All emitted (year, month) pairs of a structure, in emission order. -/
def allPairs (lh : MonthlyLifeHistory) : List (Nat × Nat) :=
  lh.flatMap (fun d => d.years.flatMap (fun y =>
    y.months.map (fun m => (y.year, m.month))))

/-- Strict lexicographic order on (year, month) pairs. -/
def pairLt (a b : Nat × Nat) : Prop :=
  a.1 < b.1 ∨ (a.1 = b.1 ∧ a.2 < b.2)

/-! ### Basic facts about the lookup and update helpers -/

lemma updateMonth_id (mId : String) (g : List LifeHistoryEvent → List LifeHistoryEvent)
    (m : LifeHistoryMonth) : (updateMonth mId g m).id = m.id := by
  unfold updateMonth; split <;> rfl

lemma updateYear_id (yId mId : String) (g : List LifeHistoryEvent → List LifeHistoryEvent)
    (y : LifeHistoryYear) : (updateYear yId mId g y).id = y.id := by
  unfold updateYear; split <;> rfl

lemma updateDecade_id (dId yId mId : String) (g : List LifeHistoryEvent → List LifeHistoryEvent)
    (d : LifeHistoryDecade) : (updateDecade dId yId mId g d).id = d.id := by
  unfold updateDecade; split <;> rfl

lemma findMonthIn_map_updateMonth (mId : String)
    (g : List LifeHistoryEvent → List LifeHistoryEvent)
    (ms : List LifeHistoryMonth) (i : String) :
    findMonthIn (ms.map (updateMonth mId g)) i =
      (findMonthIn ms i).map (updateMonth mId g) := by
  unfold findMonthIn
  rw [List.find?_map]
  have hp : ((fun m => decide (m.id = i)) ∘ updateMonth mId g) =
      fun m : LifeHistoryMonth => decide (m.id = i) := by
    funext m
    simp [Function.comp, updateMonth_id]
  rw [hp]

lemma findInYears_map_updateYear (yId mId : String)
    (g : List LifeHistoryEvent → List LifeHistoryEvent)
    (ys : List LifeHistoryYear) (i : String) :
    findInYears (ys.map (updateYear yId mId g)) i =
      (findInYears ys i).map (fun t =>
        (updateYear yId mId g t.1,
         if t.1.id = yId then updateMonth mId g t.2 else t.2)) := by
  induction ys with
  | nil => rfl
  | cons y rest ih =>
    simp only [List.map_cons, findInYears]
    by_cases hy : y.id = yId
    · have hupd : updateYear yId mId g y =
          { y with months := y.months.map (updateMonth mId g) } := by
        unfold updateYear
        simp [hy]
      rw [hupd]
      simp only
      rw [findMonthIn_map_updateMonth]
      cases h : findMonthIn y.months i with
      | none => simp [h, ih, hupd]
      | some m => simp [h, hy, hupd]
    · have hupd : updateYear yId mId g y = y := by
        unfold updateYear
        simp [hy]
      rw [hupd]
      cases h : findMonthIn y.months i with
      | none => simp [h, ih]
      | some m => simp [h, hy, hupd]

/-- How one structural-update pass transforms the triple a month lookup
returns: the decade is rebuilt, the year/month components are rebuilt
exactly when the ids on the addressed path match. -/
def updateTriple (dId yId mId : String)
    (g : List LifeHistoryEvent → List LifeHistoryEvent)
    (t : LifeHistoryDecade × LifeHistoryYear × LifeHistoryMonth) :
    LifeHistoryDecade × LifeHistoryYear × LifeHistoryMonth :=
  (updateDecade dId yId mId g t.1,
   if t.1.id = dId then updateYear yId mId g t.2.1 else t.2.1,
   if t.1.id = dId ∧ t.2.1.id = yId then updateMonth mId g t.2.2 else t.2.2)

lemma findEntities_updateMonthEvents (dId yId mId : String)
    (g : List LifeHistoryEvent → List LifeHistoryEvent)
    (lh : MonthlyLifeHistory) (i : String) :
    findEntities (updateMonthEvents dId yId mId g lh) i =
      (findEntities lh i).map (updateTriple dId yId mId g) := by
  induction lh with
  | nil => rfl
  | cons d rest ih =>
    simp only [updateMonthEvents, List.map_cons, findEntities]
    by_cases hd : d.id = dId
    · have hupd : updateDecade dId yId mId g d =
          { d with years := d.years.map (updateYear yId mId g) } := by
        unfold updateDecade
        simp [hd]
      rw [hupd]
      simp only
      rw [findInYears_map_updateYear]
      cases h : findInYears d.years i with
      | none =>
        simp only [Option.map_none]
        exact ih
      | some t =>
        simp [h, updateTriple, hd, hupd]
    · have hupd : updateDecade dId yId mId g d = d := by
        unfold updateDecade
        simp [hd]
      rw [hupd]
      cases h : findInYears d.years i with
      | none =>
        simp only [h]
        simpa [updateMonthEvents] using ih
      | some t => simp [h, updateTriple, hd, hupd]

lemma findMonthIn_id {ms : List LifeHistoryMonth} {i : String} {m : LifeHistoryMonth}
    (h : findMonthIn ms i = some m) : m.id = i := by
  have := List.find?_some h
  simpa using this

lemma findInYears_month_id {ys : List LifeHistoryYear} {i : String}
    {y : LifeHistoryYear} {m : LifeHistoryMonth}
    (h : findInYears ys i = some (y, m)) : m.id = i := by
  induction ys with
  | nil => simp [findInYears] at h
  | cons y0 rest ih =>
    simp only [findInYears] at h
    cases h0 : findMonthIn y0.months i with
    | none =>
      rw [h0] at h
      exact ih h
    | some m0 =>
      rw [h0] at h
      simp only [Option.some.injEq, Prod.mk.injEq] at h
      rw [← h.2]
      exact findMonthIn_id h0

lemma findEntities_month_id {lh : MonthlyLifeHistory} {i : String}
    {d : LifeHistoryDecade} {y : LifeHistoryYear} {m : LifeHistoryMonth}
    (h : findEntities lh i = some (d, y, m)) : m.id = i := by
  induction lh with
  | nil => simp [findEntities] at h
  | cons d0 rest ih =>
    simp only [findEntities] at h
    cases h0 : findInYears d0.years i with
    | none =>
      rw [h0] at h
      exact ih h
    | some t =>
      obtain ⟨ty, tm⟩ := t
      rw [h0] at h
      simp only [Option.some.injEq, Prod.mk.injEq] at h
      rw [← h.2.2]
      exact findInYears_month_id h0

lemma findMonthIn_eq_none {ms : List LifeHistoryMonth} {i : String}
    (h : ∀ m ∈ ms, ¬ m.id = i) : findMonthIn ms i = none := by
  unfold findMonthIn
  rw [List.find?_eq_none]
  intro m hm
  simpa using h m hm

lemma findInYears_eq_none {ys : List LifeHistoryYear} {i : String}
    (h : ∀ y ∈ ys, ∀ m ∈ y.months, ¬ m.id = i) : findInYears ys i = none := by
  induction ys with
  | nil => rfl
  | cons y rest ih =>
    simp only [findInYears]
    rw [findMonthIn_eq_none (h y (by simp))]
    exact ih (fun y2 hy2 => h y2 (by simp [hy2]))

lemma findEntities_eq_none {lh : MonthlyLifeHistory} {i : String}
    (h : ∀ d ∈ lh, ∀ y ∈ d.years, ∀ m ∈ y.months, ¬ m.id = i) :
    findEntities lh i = none := by
  induction lh with
  | nil => rfl
  | cons d rest ih =>
    simp only [findEntities]
    rw [findInYears_eq_none (h d (by simp))]
    exact ih (fun d2 hd2 => h d2 (by simp [hd2]))

/-! ### Concrete sample fixtures (used by the closed instantiations) -/

def sampleEvent : LifeHistoryEvent :=
  { id := "ev-1", event_date := "2000-06-15", event_text := some "hello"
    event_image := none, updated_at := "t0", user_id := "u1" }

def sampleEvent2 : LifeHistoryEvent :=
  { id := "ev-2", event_date := "2000-06-15", event_text := some "second"
    event_image := none, updated_at := "t0", user_id := "u1" }

def sampleMonthA : LifeHistoryMonth :=
  { id := "2000-06", month := 6, events := [sampleEvent, sampleEvent2] }

def sampleMonthB : LifeHistoryMonth :=
  { id := "2000-07", month := 7, events := [] }

def sampleYear : LifeHistoryYear :=
  { id := "year-2000", year := 2000, months := [sampleMonthA, sampleMonthB] }

def sampleDecade : LifeHistoryDecade :=
  { id := "decade-200", decade := 1, years := [sampleYear] }

def sampleLifeHistory : MonthlyLifeHistory := [sampleDecade]

def missingMonth : LifeHistoryMonth :=
  { id := "1999-01", month := 1, events := [] }

/-! ### Claims C8, C9, C10 -/

/-- Claim C8: `LifeHistory.initiate(null)` returns the empty sequence of
decades; this is the explicit empty-state behaviour, not an error. -/
theorem C8_initiate_null (genId : Nat → Nat → String) (now : String) :
    LifeHistory.initiate genId now none = [] := rfl

/-- Claim C9: `isLifeHistoryTextEvent` returns true iff the event carries
an `event_text` field whose value is truthy (so an event whose
`event_text` is the empty string is not classified as a text event), and
symmetrically `isLifeHistoryImageEvent` for `event_image`. -/
theorem C9_event_discrimination (event : LifeHistoryEvent) :
    (isLifeHistoryTextEvent event = true ↔
      ∃ s, event.event_text = some s ∧ s ≠ "") ∧
    (isLifeHistoryImageEvent event = true ↔
      ∃ s, event.event_image = some s ∧ s ≠ "") ∧
    (event.event_text = some "" → isLifeHistoryTextEvent event = false) := by
  refine ⟨?_, ?_, ?_⟩
  · unfold isLifeHistoryTextEvent
    cases h : event.event_text with
    | none => simp
    | some s => simp [jsStringTruthy]
  · unfold isLifeHistoryImageEvent
    cases h : event.event_image with
    | none => simp
    | some s => simp [jsStringTruthy]
  · intro h
    unfold isLifeHistoryTextEvent
    rw [h]
    simp [jsStringTruthy]

/-- Claim C10: `LifeHistory.initiate` called with the empty string also
returns the empty sequence, because the absence check is a JS truthiness
test on the argument rather than a comparison with null. -/
theorem C10_initiate_empty_string (genId : Nat → Nat → String) (now : String) :
    LifeHistory.initiate genId now (some "") = [] := by
  simp [LifeHistory.initiate]

/-! ### Claim C4: failed lookups leave the structure unchanged -/

/-- Claim C4: if the source month id or the target month id is not the id
of any month in the structure, or the source month is found but contains
no event with the given event's id, then `moveEvent` returns its
`lifeHistory` input unchanged (and, being a total function, throws
nothing). -/
theorem C4_moveEvent_missing_noop (now : String) (event : LifeHistoryEvent)
    (lh : MonthlyLifeHistory) (sourceMonth targetMonth : LifeHistoryMonth)
    (h : (∀ d ∈ lh, ∀ y ∈ d.years, ∀ m ∈ y.months, ¬ m.id = sourceMonth.id) ∨
         (∀ d ∈ lh, ∀ y ∈ d.years, ∀ m ∈ y.months, ¬ m.id = targetMonth.id) ∨
         (∃ t, findEntities lh sourceMonth.id = some t ∧
            ∀ ev ∈ t.2.2.events, ¬ ev.id = event.id)) :
    LifeHistory.moveEvent now event lh sourceMonth targetMonth = lh := by
  rcases h with h1 | h2 | ⟨t, ht, hev⟩
  · have hn : findEntities lh sourceMonth.id = none := findEntities_eq_none h1
    cases h2 : findEntities lh targetMonth.id with
    | none => simp [LifeHistory.moveEvent, hn, h2]
    | some t2 => simp [LifeHistory.moveEvent, hn, h2]
  · have hn : findEntities lh targetMonth.id = none := findEntities_eq_none h2
    cases h1 : findEntities lh sourceMonth.id with
    | none => simp [LifeHistory.moveEvent, hn, h1]
    | some t1 => simp [LifeHistory.moveEvent, hn, h1]
  · have hf : t.2.2.events.find? (fun e => decide (e.id = event.id)) = none := by
      rw [List.find?_eq_none]
      intro ev hmem
      simpa using hev ev hmem
    cases h2 : findEntities lh targetMonth.id with
    | none => simp [LifeHistory.moveEvent, ht, h2]
    | some t2 => simp [LifeHistory.moveEvent, ht, h2, hf]

/-- Closed instance of `C4_moveEvent_missing_noop`: moving out of a month
id absent from the sample structure is a no-op. -/
theorem C4_moveEvent_missing_noop_witness :
    LifeHistory.moveEvent "t1" sampleEvent sampleLifeHistory missingMonth sampleMonthB
      = sampleLifeHistory :=
  C4_moveEvent_missing_noop "t1" sampleEvent sampleLifeHistory missingMonth sampleMonthB
    (Or.inl (by decide))

/-! ### Machinery for the move claims -/

lemma find?_eq_of_countP_one {α : Type} {p : α → Bool} {l : List α} {a : α}
    (hc : l.countP p = 1) (hm : a ∈ l) (hp : p a = true) :
    l.find? p = some a := by
  induction l with
  | nil => simp at hm
  | cons b t ih =>
    by_cases hb : p b = true
    · rw [List.find?_cons_of_pos _ hb]
      rcases List.mem_cons.mp hm with rfl | hmt
      · rfl
      · exfalso
        rw [List.countP_cons_of_pos _ _ hb] at hc
        have h0 : t.countP p = 0 := by omega
        have hpos : 0 < t.countP p := List.countP_pos_iff.mpr ⟨a, hmt, hp⟩
        omega
    · have hab : a ≠ b := by
        intro he
        rw [he] at hp
        exact hb hp
      have hmt : a ∈ t := by
        rcases List.mem_cons.mp hm with rfl | hmt
        · exact absurd rfl hab
        · exact hmt
      rw [List.find?_cons_of_neg _ (by simpa using hb)]
      rw [List.countP_cons_of_neg _ _ (by simpa using hb)] at hc
      exact ih hc hmt

lemma filter_length_of_countP_one {l : List LifeHistoryEvent} {eid : String}
    (hc : l.countP (fun x => decide (x.id = eid)) = 1) :
    (l.filter (fun x => decide (x.id ≠ eid))).length + 1 = l.length := by
  have hsplit := List.length_eq_countP_add_countP (fun x : LifeHistoryEvent => decide (x.id = eid)) l
  have hq : (fun a : LifeHistoryEvent => decide (¬ (decide (a.id = eid)) = true)) =
      fun x : LifeHistoryEvent => decide (x.id ≠ eid) := by
    funext a
    by_cases h : a.id = eid <;> simp [h]
  rw [hq] at hsplit
  rw [← List.countP_eq_length_filter]
  omega

/-- Reduction of a successful `moveEvent` call to the two structural
update passes. -/
lemma moveEvent_eq (now : String) {event ev : LifeHistoryEvent}
    {lh : MonthlyLifeHistory} {sourceMonth targetMonth : LifeHistoryMonth}
    {sd td : LifeHistoryDecade} {sy ty : LifeHistoryYear} {sm tm : LifeHistoryMonth}
    (hs : findEntities lh sourceMonth.id = some (sd, sy, sm))
    (ht : findEntities lh targetMonth.id = some (td, ty, tm))
    (hf : sm.events.find? (fun e => decide (e.id = event.id)) = some ev) :
    LifeHistory.moveEvent now event lh sourceMonth targetMonth =
      updateMonthEvents td.id ty.id targetMonth.id
        (fun evs => evs ++
          [{ ev with event_date := formatTargetDate tm.id, updated_at := now }])
        (updateMonthEvents sd.id sy.id sourceMonth.id
          (fun evs => evs.filter (fun e => decide (e.id ≠ event.id))) lh) := by
  simp only [LifeHistory.moveEvent, hs, ht, hf]

/-- A lookup that hits the addressed path of an update pass sees the
transformed month. -/
lemma findEntities_update_match {lh : MonthlyLifeHistory} {i dId yId : String}
    {d : LifeHistoryDecade} {y : LifeHistoryYear} {m : LifeHistoryMonth}
    (g : List LifeHistoryEvent → List LifeHistoryEvent)
    (h : findEntities lh i = some (d, y, m)) (hd : d.id = dId) (hy : y.id = yId) :
    findEntities (updateMonthEvents dId yId i g lh) i =
      some (updateDecade dId yId i g d,
            updateYear yId i g y,
            { m with events := g m.events }) := by
  rw [findEntities_updateMonthEvents, h]
  have hm : m.id = i := findEntities_month_id h
  simp [updateTriple, hd, hy, updateMonth, hm]

/-- A lookup for a month id other than the updated one sees the original
month (only its enclosing decade/year records may have been rebuilt). -/
lemma findEntities_update_off {lh : MonthlyLifeHistory} {i dId yId mId : String}
    {d : LifeHistoryDecade} {y : LifeHistoryYear} {m : LifeHistoryMonth}
    (g : List LifeHistoryEvent → List LifeHistoryEvent)
    (hne : i ≠ mId)
    (h : findEntities lh i = some (d, y, m)) :
    findEntities (updateMonthEvents dId yId mId g lh) i =
      some (updateDecade dId yId mId g d,
            if d.id = dId then updateYear yId mId g y else y,
            m) := by
  rw [findEntities_updateMonthEvents, h]
  have hm : m.id = i := findEntities_month_id h
  have hmne : updateMonth mId g m = m := by
    unfold updateMonth
    rw [if_pos]
    rw [hm]
    exact hne
  have hcond : (if d.id = dId ∧ y.id = yId then updateMonth mId g m else m) = m := by
    split
    · exact hmne
    · rfl
  simp [updateTriple, hcond]

/-! ### Claim C5: moving an event between two distinct months -/

/-- Claim C5: for a structure containing distinct months A and B and an
event present exactly once (by id), in A, `moveEvent` removes it from A's
list (one fewer entry), appends the updated copy at the end of B's list
(one more entry), and the moved event's `event_date` is the 15th of B's
month, formatted "YYYY-MM-DD" from B's "YYYY-MM" id. -/
theorem C5_move_between_months (now : String) (e : LifeHistoryEvent)
    (lh : MonthlyLifeHistory) (A B : LifeHistoryMonth)
    (dA dB : LifeHistoryDecade) (yA yB : LifeHistoryYear)
    (mA mB : LifeHistoryMonth)
    (hA : findEntities lh A.id = some (dA, yA, mA))
    (hB : findEntities lh B.id = some (dB, yB, mB))
    (hne : A.id ≠ B.id)
    (he : e ∈ mA.events)
    (hc : mA.events.countP (fun x => decide (x.id = e.id)) = 1) :
    ∃ evsA evsB,
      monthEvents (LifeHistory.moveEvent now e lh A B) A.id = some evsA ∧
      evsA.length + 1 = mA.events.length ∧
      monthEvents (LifeHistory.moveEvent now e lh A B) B.id = some evsB ∧
      evsB.length = mB.events.length + 1 ∧
      evsB.getLast? =
        some { e with event_date := B.id ++ "-15", updated_at := now } := by
  have hf : mA.events.find? (fun x => decide (x.id = e.id)) = some e :=
    find?_eq_of_countP_one hc he (by simp)
  have hred := moveEvent_eq now hA hB hf
  have hmB : mB.id = B.id := findEntities_month_id hB
  have h1A := findEntities_update_match
    (fun evs => evs.filter (fun x => decide (x.id ≠ e.id))) hA rfl rfl
  have h2A := @findEntities_update_off _ _ dB.id yB.id _ _ _ _
    (fun evs => evs ++
      [{ e with event_date := formatTargetDate mB.id, updated_at := now }])
    hne h1A
  have h1B := @findEntities_update_off _ _ dA.id yA.id _ _ _ _
    (fun evs => evs.filter (fun x => decide (x.id ≠ e.id)))
    (fun hcontra => hne hcontra.symm) hB
  have h2B := findEntities_update_match
    (fun evs => evs ++
      [{ e with event_date := formatTargetDate mB.id, updated_at := now }])
    h1B (by rw [updateDecade_id])
    (by split
        · rw [updateYear_id]
        · rfl)
  refine ⟨mA.events.filter (fun x => decide (x.id ≠ e.id)),
          mB.events ++
            [{ e with event_date := formatTargetDate mB.id, updated_at := now }],
          ?_, ?_, ?_, ?_, ?_⟩
  · rw [hred]
    unfold monthEvents
    rw [h2A]
    rfl
  · exact filter_length_of_countP_one hc
  · rw [hred]
    unfold monthEvents
    rw [h2B]
    rfl
  · simp
  · rw [List.getLast?_concat]
    simp [formatTargetDate, hmB]

/-- Closed instance of `C5_move_between_months` on the sample structure. -/
theorem C5_move_between_months_witness :
    ∃ evsA evsB,
      monthEvents
        (LifeHistory.moveEvent "t1" sampleEvent sampleLifeHistory sampleMonthA sampleMonthB)
        sampleMonthA.id = some evsA ∧
      evsA.length + 1 = sampleMonthA.events.length ∧
      monthEvents
        (LifeHistory.moveEvent "t1" sampleEvent sampleLifeHistory sampleMonthA sampleMonthB)
        sampleMonthB.id = some evsB ∧
      evsB.length = sampleMonthB.events.length + 1 ∧
      evsB.getLast? =
        some { sampleEvent with event_date := sampleMonthB.id ++ "-15", updated_at := "t1" } :=
  C5_move_between_months "t1" sampleEvent sampleLifeHistory sampleMonthA sampleMonthB
    sampleDecade sampleDecade sampleYear sampleYear sampleMonthA sampleMonthB
    (by decide) (by decide) (by decide) (by decide) (by decide)

lemma updateTriple_fst_id (dId yId mId : String)
    (g : List LifeHistoryEvent → List LifeHistoryEvent)
    (t : LifeHistoryDecade × LifeHistoryYear × LifeHistoryMonth) :
    (updateTriple dId yId mId g t).1.id = t.1.id := by
  unfold updateTriple
  rw [updateDecade_id]

lemma updateTriple_snd_id (dId yId mId : String)
    (g : List LifeHistoryEvent → List LifeHistoryEvent)
    (t : LifeHistoryDecade × LifeHistoryYear × LifeHistoryMonth) :
    (updateTriple dId yId mId g t).2.1.id = t.2.1.id := by
  unfold updateTriple
  simp only
  split
  · rw [updateYear_id]
  · rfl

lemma updateTriple_month_off {dId yId mId : String}
    {g : List LifeHistoryEvent → List LifeHistoryEvent}
    {t : LifeHistoryDecade × LifeHistoryYear × LifeHistoryMonth}
    (hne : t.2.2.id ≠ mId) :
    (updateTriple dId yId mId g t).2.2 = t.2.2 := by
  unfold updateTriple
  simp only
  split
  · unfold updateMonth
    rw [if_pos hne]
  · rfl

lemma updateTriple_month_on {dId yId mId : String}
    {g : List LifeHistoryEvent → List LifeHistoryEvent}
    {t : LifeHistoryDecade × LifeHistoryYear × LifeHistoryMonth}
    (hd : t.1.id = dId) (hy : t.2.1.id = yId) (hm : t.2.2.id = mId) :
    (updateTriple dId yId mId g t).2.2 = { t.2.2 with events := g t.2.2.events } := by
  unfold updateTriple
  simp only [hd, hy, and_self, if_true]
  unfold updateMonth
  rw [if_neg]
  simp [hm]

/-! ### Claim C6: moving an event onto its own month -/

/-- Claim C6: moving an event onto its own month leaves every month's
event count unchanged (months addressed by id, the structure's sole
lookup key), while the event gets a regenerated `event_date` (the 15th of
M, derived from M's id) and `updated_at`, keeps its id and content
fields, and is repositioned to the end of M's list. -/
theorem C6_move_same_month (now : String) (e : LifeHistoryEvent)
    (lh : MonthlyLifeHistory) (M : LifeHistoryMonth)
    (d : LifeHistoryDecade) (y : LifeHistoryYear) (m : LifeHistoryMonth)
    (hM : findEntities lh M.id = some (d, y, m))
    (he : e ∈ m.events)
    (hc : m.events.countP (fun x => decide (x.id = e.id)) = 1) :
    (∀ i, (monthEvents (LifeHistory.moveEvent now e lh M M) i).map List.length =
          (monthEvents lh i).map List.length) ∧
    ∃ evs, monthEvents (LifeHistory.moveEvent now e lh M M) M.id = some evs ∧
      evs.length = m.events.length ∧
      evs.getLast? = some { e with event_date := M.id ++ "-15", updated_at := now } := by
  have hf : m.events.find? (fun x => decide (x.id = e.id)) = some e :=
    find?_eq_of_countP_one hc he (by simp)
  have hred := moveEvent_eq now hM hM hf
  have hm : m.id = M.id := findEntities_month_id hM
  have hlen : (m.events.filter (fun x => decide (x.id ≠ e.id))).length + 1 =
      m.events.length := filter_length_of_countP_one hc
  have h1 := findEntities_update_match
    (fun evs => evs.filter (fun x => decide (x.id ≠ e.id))) hM rfl rfl
  have h2 := findEntities_update_match
    (fun evs => evs ++
      [{ e with event_date := formatTargetDate m.id, updated_at := now }])
    h1 (by rw [updateDecade_id]) (by rw [updateYear_id])
  constructor
  · intro i
    unfold monthEvents
    rw [hred, findEntities_updateMonthEvents, findEntities_updateMonthEvents]
    cases hi : findEntities lh i with
    | none => rfl
    | some t =>
      obtain ⟨di, yi, mi⟩ := t
      simp only [Option.map_map, Option.map_some', Function.comp_apply]
      by_cases hii : i = M.id
      · subst hii
        rw [hM] at hi
        injection hi with hi
        injection hi with hd hi
        injection hi with hy hmm
        subst hd
        subst hy
        subst hmm
        have hon1 := @updateTriple_month_on d.id y.id M.id
          (fun evs => evs.filter (fun x => decide (x.id ≠ e.id)))
          (d, y, m) rfl rfl hm
        have hon2 := @updateTriple_month_on d.id y.id M.id
          (fun evs => evs ++
            [{ e with event_date := formatTargetDate m.id, updated_at := now }])
          (updateTriple d.id y.id M.id
            (fun evs => evs.filter (fun x => decide (x.id ≠ e.id))) (d, y, m))
          (by rw [updateTriple_fst_id]) (by rw [updateTriple_snd_id])
          (by rw [hon1]; exact hm)
        rw [hon2, hon1]
        simpa using hlen
      · have hmi : mi.id = i := findEntities_month_id hi
        have hmine : mi.id ≠ M.id := by
          rw [hmi]
          exact hii
        have hoff1 := @updateTriple_month_off d.id y.id M.id
          (fun evs => evs.filter (fun x => decide (x.id ≠ e.id)))
          (di, yi, mi) hmine
        have hoff2 := @updateTriple_month_off d.id y.id M.id
          (fun evs => evs ++
            [{ e with event_date := formatTargetDate m.id, updated_at := now }])
          (updateTriple d.id y.id M.id
            (fun evs => evs.filter (fun x => decide (x.id ≠ e.id))) (di, yi, mi))
          (by rw [hoff1]; exact hmine)
        rw [hoff2, hoff1]
  · refine ⟨m.events.filter (fun x => decide (x.id ≠ e.id)) ++
      [{ e with event_date := formatTargetDate m.id, updated_at := now }], ?_, ?_, ?_⟩
    · rw [hred]
      unfold monthEvents
      rw [h2]
      rfl
    · simp only [List.length_append, List.length_cons, List.length_nil]
      omega
    · rw [List.getLast?_concat]
      simp [formatTargetDate, hm]

/-- Closed instance of `C6_move_same_month` on the sample structure. -/
theorem C6_move_same_month_witness :
    (∀ i, (monthEvents
        (LifeHistory.moveEvent "t1" sampleEvent sampleLifeHistory sampleMonthA sampleMonthA)
        i).map List.length = (monthEvents sampleLifeHistory i).map List.length) ∧
    ∃ evs, monthEvents
        (LifeHistory.moveEvent "t1" sampleEvent sampleLifeHistory sampleMonthA sampleMonthA)
        sampleMonthA.id = some evs ∧
      evs.length = sampleMonthA.events.length ∧
      evs.getLast? =
        some { sampleEvent with event_date := sampleMonthA.id ++ "-15", updated_at := "t1" } :=
  C6_move_same_month "t1" sampleEvent sampleLifeHistory sampleMonthA
    sampleDecade sampleYear sampleMonthA
    (by decide) (by decide) (by decide)

/-! ### Claim C7: frame property of a successful move -/

/-- A month node off the addressed paths is returned unchanged; in any
case its id survives. -/
def MonthUntouched (mIds : List String) (m mq : LifeHistoryMonth) : Prop :=
  mq.id = m.id ∧ (m.id ∉ mIds → mq = m)

/-- A year node off the addressed paths is returned unchanged; in any
case its id survives and its months correspond one-to-one. -/
def YearUntouched (yIds mIds : List String) (y yq : LifeHistoryYear) : Prop :=
  yq.id = y.id ∧ (y.id ∉ yIds → yq = y) ∧
    List.Forall₂ (MonthUntouched mIds) y.months yq.months

/-- A decade node off the addressed paths is returned unchanged; in any
case its id survives and its years correspond one-to-one. -/
def DecadeUntouched (dIds yIds mIds : List String) (d dq : LifeHistoryDecade) : Prop :=
  dq.id = d.id ∧ (d.id ∉ dIds → dq = d) ∧
    List.Forall₂ (YearUntouched yIds mIds) d.years dq.years

lemma forall₂_trans_of {α : Type} {R : α → α → Prop}
    (hR : ∀ a b c, R a b → R b c → R a c) :
    ∀ {l1 l2 l3 : List α}, List.Forall₂ R l1 l2 → List.Forall₂ R l2 l3 →
      List.Forall₂ R l1 l3 := by
  intro l1 l2 l3 h12 h23
  induction h12 generalizing l3 with
  | nil =>
    cases h23
    exact List.Forall₂.nil
  | cons hab htail ih =>
    cases h23 with
    | cons hbc htail2 => exact List.Forall₂.cons (hR _ _ _ hab hbc) (ih htail2)

lemma forall₂_map_self {α : Type} {R : α → α → Prop} {l : List α} {f : α → α}
    (h : ∀ a ∈ l, R a (f a)) : List.Forall₂ R l (l.map f) := by
  induction l with
  | nil => exact List.Forall₂.nil
  | cons a t ih =>
    simp only [List.map_cons]
    exact List.Forall₂.cons (h a (by simp))
      (ih (fun x hx => h x (by simp [hx])))

lemma MonthUntouched_refl (mIds : List String) (m : LifeHistoryMonth) :
    MonthUntouched mIds m m :=
  ⟨rfl, fun _ => rfl⟩

lemma YearUntouched_refl (yIds mIds : List String) (y : LifeHistoryYear) :
    YearUntouched yIds mIds y y :=
  ⟨rfl, fun _ => rfl,
   List.forall₂_same.mpr (fun m _ => MonthUntouched_refl mIds m)⟩

lemma MonthUntouched_trans {mIds : List String} {m1 m2 m3 : LifeHistoryMonth}
    (h12 : MonthUntouched mIds m1 m2) (h23 : MonthUntouched mIds m2 m3) :
    MonthUntouched mIds m1 m3 := by
  obtain ⟨hid12, hu12⟩ := h12
  obtain ⟨hid23, hu23⟩ := h23
  refine ⟨hid23.trans hid12, fun hn => ?_⟩
  have h2 := hu12 hn
  have h3 := hu23 (by rw [hid12]; exact hn)
  rw [h3, h2]

lemma YearUntouched_trans {yIds mIds : List String} {y1 y2 y3 : LifeHistoryYear}
    (h12 : YearUntouched yIds mIds y1 y2) (h23 : YearUntouched yIds mIds y2 y3) :
    YearUntouched yIds mIds y1 y3 := by
  obtain ⟨hid12, hu12, hf12⟩ := h12
  obtain ⟨hid23, hu23, hf23⟩ := h23
  refine ⟨hid23.trans hid12, fun hn => ?_, ?_⟩
  · have h2 := hu12 hn
    have h3 := hu23 (by rw [hid12]; exact hn)
    rw [h3, h2]
  · exact @forall₂_trans_of LifeHistoryMonth (MonthUntouched mIds)
      (fun a b c h1 h2 => MonthUntouched_trans h1 h2) _ _ _ hf12 hf23

lemma DecadeUntouched_trans {dIds yIds mIds : List String}
    {d1 d2 d3 : LifeHistoryDecade}
    (h12 : DecadeUntouched dIds yIds mIds d1 d2)
    (h23 : DecadeUntouched dIds yIds mIds d2 d3) :
    DecadeUntouched dIds yIds mIds d1 d3 := by
  obtain ⟨hid12, hu12, hf12⟩ := h12
  obtain ⟨hid23, hu23, hf23⟩ := h23
  refine ⟨hid23.trans hid12, fun hn => ?_, ?_⟩
  · have h2 := hu12 hn
    have h3 := hu23 (by rw [hid12]; exact hn)
    rw [h3, h2]
  · exact @forall₂_trans_of LifeHistoryYear (YearUntouched yIds mIds)
      (fun a b c h1 h2 => YearUntouched_trans h1 h2) _ _ _ hf12 hf23

lemma monthUntouched_updateMonth {mIds : List String} {mId : String}
    (hm : mId ∈ mIds) (g : List LifeHistoryEvent → List LifeHistoryEvent)
    (m : LifeHistoryMonth) : MonthUntouched mIds m (updateMonth mId g m) := by
  refine ⟨updateMonth_id mId g m, fun hn => ?_⟩
  unfold updateMonth
  rw [if_pos]
  intro hc
  rw [hc] at hn
  exact hn hm

lemma yearUntouched_updateYear {yIds mIds : List String} {yId mId : String}
    (hy : yId ∈ yIds) (hm : mId ∈ mIds)
    (g : List LifeHistoryEvent → List LifeHistoryEvent)
    (y : LifeHistoryYear) : YearUntouched yIds mIds y (updateYear yId mId g y) := by
  refine ⟨updateYear_id yId mId g y, fun hn => ?_, ?_⟩
  · unfold updateYear
    rw [if_pos]
    intro hc
    rw [hc] at hn
    exact hn hy
  · unfold updateYear
    split
    · exact List.forall₂_same.mpr (fun m _ => MonthUntouched_refl mIds m)
    · exact forall₂_map_self (fun m _ => monthUntouched_updateMonth hm g m)

lemma decadeUntouched_updateDecade {dIds yIds mIds : List String}
    {dId yId mId : String}
    (hd : dId ∈ dIds) (hy : yId ∈ yIds) (hm : mId ∈ mIds)
    (g : List LifeHistoryEvent → List LifeHistoryEvent)
    (d : LifeHistoryDecade) :
    DecadeUntouched dIds yIds mIds d (updateDecade dId yId mId g d) := by
  refine ⟨updateDecade_id dId yId mId g d, fun hn => ?_, ?_⟩
  · unfold updateDecade
    rw [if_pos]
    intro hc
    rw [hc] at hn
    exact hn hd
  · unfold updateDecade
    split
    · exact List.forall₂_same.mpr (fun y _ => YearUntouched_refl yIds mIds y)
    · exact forall₂_map_self (fun y _ => yearUntouched_updateYear hy hm g y)

lemma forall₂_updateMonthEvents {dIds yIds mIds : List String}
    {dId yId mId : String}
    (hd : dId ∈ dIds) (hy : yId ∈ yIds) (hm : mId ∈ mIds)
    (g : List LifeHistoryEvent → List LifeHistoryEvent)
    (lh : MonthlyLifeHistory) :
    List.Forall₂ (DecadeUntouched dIds yIds mIds) lh
      (updateMonthEvents dId yId mId g lh) :=
  forall₂_map_self (fun d _ => decadeUntouched_updateDecade hd hy hm g d)

/-- Claim C7: for every successful `moveEvent` call, each decade, year and
month node that is not on the path to the source month or to the target
month appears unchanged (equal to the corresponding node of the input) in
the returned structure, with the node correspondence positional at every
level. -/
theorem C7_frame_preservation (now : String) (event ev : LifeHistoryEvent)
    (lh : MonthlyLifeHistory) (sourceMonth targetMonth : LifeHistoryMonth)
    (sd td : LifeHistoryDecade) (sy ty : LifeHistoryYear)
    (sm tm : LifeHistoryMonth)
    (hs : findEntities lh sourceMonth.id = some (sd, sy, sm))
    (ht : findEntities lh targetMonth.id = some (td, ty, tm))
    (hev : sm.events.find? (fun x => decide (x.id = event.id)) = some ev) :
    List.Forall₂
      (DecadeUntouched [sd.id, td.id] [sy.id, ty.id]
        [sourceMonth.id, targetMonth.id])
      lh (LifeHistory.moveEvent now event lh sourceMonth targetMonth) := by
  rw [moveEvent_eq now hs ht hev]
  refine @forall₂_trans_of LifeHistoryDecade
    (DecadeUntouched [sd.id, td.id] [sy.id, ty.id] [sourceMonth.id, targetMonth.id])
    (fun a b c h1 h2 => DecadeUntouched_trans h1 h2) lh
    (updateMonthEvents sd.id sy.id sourceMonth.id
      (fun evs => evs.filter (fun e => decide (e.id ≠ event.id))) lh) _ ?_ ?_
  · exact forall₂_updateMonthEvents (by simp) (by simp) (by simp) _ lh
  · exact forall₂_updateMonthEvents (by simp) (by simp) (by simp) _ _

/-- Closed instance of `C7_frame_preservation` on the sample structure. -/
theorem C7_frame_preservation_witness :
    List.Forall₂
      (DecadeUntouched [sampleDecade.id, sampleDecade.id]
        [sampleYear.id, sampleYear.id] [sampleMonthA.id, sampleMonthB.id])
      sampleLifeHistory
      (LifeHistory.moveEvent "t1" sampleEvent sampleLifeHistory sampleMonthA sampleMonthB) :=
  C7_frame_preservation "t1" sampleEvent sampleEvent sampleLifeHistory
    sampleMonthA sampleMonthB sampleDecade sampleDecade sampleYear sampleYear
    sampleMonthA sampleMonthB (by decide) (by decide) (by decide)

/-! ### Structure of the generated calendar -/

lemma flatMap_congr_mem {α β : Type} {l : List α} {f g : α → List β}
    (h : ∀ a ∈ l, f a = g a) : l.flatMap f = l.flatMap g := by
  induction l with
  | nil => rfl
  | cons a t ih =>
    simp only [List.flatMap_cons]
    rw [h a (by simp), ih (fun x hx => h x (by simp [hx]))]

lemma glue_mono (a len : Nat → Nat) :
    ∀ n, (∀ i, i < n → a i + len i = a (i + 1)) → a 0 ≤ a n := by
  intro n
  induction n with
  | zero => intro _; exact Nat.le_refl _
  | succ k ih =>
    intro h
    have h1 := ih (fun i hi => h i (by omega))
    have h2 := h k (by omega)
    omega

/-- Contiguous segments glue into a single segment. -/
lemma flatMap_range'_glue (a len : Nat → Nat) :
    ∀ n, (∀ i, i < n → a i + len i = a (i + 1)) →
      (List.range n).flatMap (fun i => List.range' (a i) (len i)) =
        List.range' (a 0) (a n - a 0) := by
  intro n
  induction n with
  | zero => intro _; simp
  | succ k ih =>
    intro h
    have hk := ih (fun i hi => h i (by omega))
    have hmono := glue_mono a len k (fun i hi => h i (by omega))
    have hstep := h k (by omega)
    rw [List.range_succ, List.flatMap_append, hk]
    simp only [List.flatMap_cons, List.flatMap_nil, List.append_nil]
    have happ := List.range'_append (a 0) (a k - a 0) (len k) 1
    have hs : a 0 + 1 * (a k - a 0) = a k := by omega
    rw [hs] at happ
    rw [happ]
    congr 1
    omega

lemma map_range_getLast {α : Type} (f : Nat → α) (n : Nat) :
    ((List.range (n + 1)).map f).getLast? = some (f n) := by
  rw [List.range_succ, List.map_append]
  simp

/-- The years of the generated structure, flattened across decades, are
exactly the 81 calendar years from the birth year to `birthYear + 80`. -/
lemma initiateFrom_years (genId : Nat → Nat → String) (now : String)
    (BY BM : Nat) :
    (initiateFrom genId now BY BM).flatMap (fun d => d.years) =
      (List.range' BY 81).map (mkYear genId now BY BM) := by
  unfold initiateFrom
  rw [List.flatMap_map]
  have hy : ∀ i ∈ List.range ((BY + 80) / 10 + 1 - BY / 10),
      (mkDecade genId now BY BM i).years =
        (List.range' (max BY ((BY / 10 + i) * 10))
          (min (BY + 80) ((BY / 10 + i) * 10 + 9) + 1 -
            max BY ((BY / 10 + i) * 10))).map (mkYear genId now BY BM) := by
    intro i _
    unfold mkDecade
    simp only
    rw [List.range'_eq_map_range, List.map_map]
    rfl
  rw [flatMap_congr_mem hy]
  have hpull : ∀ i ∈ List.range ((BY + 80) / 10 + 1 - BY / 10),
      (List.range' (max BY ((BY / 10 + i) * 10))
        (min (BY + 80) ((BY / 10 + i) * 10 + 9) + 1 -
          max BY ((BY / 10 + i) * 10))).map (mkYear genId now BY BM) =
      List.map (mkYear genId now BY BM)
        ((fun i => List.range'
          ((fun j => if j < (BY + 80) / 10 + 1 - BY / 10
              then max BY ((BY / 10 + j) * 10) else BY + 81) i)
          ((fun j => min (BY + 80) ((BY / 10 + j) * 10 + 9) + 1 -
              max BY ((BY / 10 + j) * 10)) i)) i) := by
    intro i hi
    rw [List.mem_range] at hi
    simp only [if_pos hi]
  rw [flatMap_congr_mem hpull]
  rw [← List.map_flatMap]
  rw [flatMap_range'_glue
    (fun j => if j < (BY + 80) / 10 + 1 - BY / 10
        then max BY ((BY / 10 + j) * 10) else BY + 81)
    (fun j => min (BY + 80) ((BY / 10 + j) * 10 + 9) + 1 -
        max BY ((BY / 10 + j) * 10))
    ((BY + 80) / 10 + 1 - BY / 10)
    ?_]
  · have e1 : (if 0 < (BY + 80) / 10 + 1 - BY / 10
        then max BY ((BY / 10 + 0) * 10) else BY + 81) = BY := by
      rw [if_pos (by omega)]
      omega
    have e2 : (if (BY + 80) / 10 + 1 - BY / 10 < (BY + 80) / 10 + 1 - BY / 10
        then max BY ((BY / 10 + ((BY + 80) / 10 + 1 - BY / 10)) * 10)
        else BY + 81) = BY + 81 := by
      rw [if_neg (by omega)]
    simp only [e1]
    rw [e2]
    have e3 : BY + 81 - BY = 81 := by omega
    rw [e3]
  · intro i hi
    by_cases hi1 : i + 1 < (BY + 80) / 10 + 1 - BY / 10
    · simp only [if_pos hi, if_pos hi1]
      omega
    · simp only [if_pos hi, if_neg hi1]
      omega

lemma sum_map_const {α : Type} {l : List α} {f : α → Nat} {c : Nat}
    (h : ∀ x ∈ l, f x = c) : (l.map f).sum = c * l.length := by
  induction l with
  | nil => simp
  | cons a t ih =>
    simp only [List.map_cons, List.sum_cons, List.length_cons]
    rw [h a (by simp), ih (fun x hx => h x (by simp [hx])), Nat.mul_succ]
    omega

lemma range'_split_81 (BY : Nat) :
    List.range' BY 81 = BY :: (List.range' (BY + 1) 79 ++ [BY + 80]) := by
  have h1 : List.range' BY 81 = BY :: List.range' (BY + 1) 80 := by
    rw [show (81 : Nat) = 80 + 1 from rfl, List.range'_succ]
  have h2 : List.range' (BY + 1) 79 ++ [BY + 80] = List.range' (BY + 1) 80 := by
    have happ := List.range'_append (BY + 1) 79 1 1
    simp only [List.range'_one] at happ
    rw [show BY + 1 + 1 * 79 = BY + 80 by omega] at happ
    rw [happ]
  rw [h1, ← h2]

/-! ### Claim C1: the total month count -/

/-- Claim C1 (amended): for every valid birth date the total number of
month nodes is `80*12 = 960` when the birth month is at least February,
and `81*12 = 972` when the birth month is January — not `80*12 + 1 = 961`,
and not independent of the birth month. -/
theorem C1_month_count_amended (genId : Nat → Nat → String) (now : String)
    (s : String) (BY BM : Nat)
    (hp : parseBirthDate s = (BY, BM)) (hs0 : ¬ s = "")
    (h1 : 1 ≤ BM) (h2 : BM ≤ 12) :
    countMonths (LifeHistory.initiate genId now (some s)) =
      if BM = 1 then 972 else 960 := by
  have hinit : LifeHistory.initiate genId now (some s) =
      initiateFrom genId now BY BM := by
    show (if s = "" then []
      else initiateFrom genId now (parseBirthDate s).1 (parseBirthDate s).2) =
        initiateFrom genId now BY BM
    rw [if_neg hs0, hp]
  rw [hinit]
  unfold countMonths
  rw [initiateFrom_years, List.map_map, range'_split_81]
  simp only [List.map_cons, List.map_append, List.sum_cons, List.sum_append,
    List.map_nil, List.sum_nil, Function.comp_apply]
  have hmid : ∀ year ∈ List.range' (BY + 1) 79,
      ((fun y : LifeHistoryYear => y.months.length) ∘
        mkYear genId now BY BM) year = 12 := by
    intro year hy
    rw [List.mem_range'_1] at hy
    have hne1 : ¬ year = BY := by omega
    have hne2 : ¬ year = BY + 80 := by omega
    simp [Function.comp, mkYear, hne1, hne2]
  rw [sum_map_const hmid]
  simp only [List.length_range']
  have hne : ¬ BY = BY + 80 := by omega
  have hne2 : ¬ BY + 80 = BY := by omega
  have hfirst : (mkYear genId now BY BM BY).months.length = 13 - BM := by
    simp [mkYear, hne]
  have hlast : (mkYear genId now BY BM (BY + 80)).months.length =
      if BM - 1 = 0 then 12 else BM - 1 := by
    simp [mkYear, hne2]
  rw [hfirst, hlast]
  by_cases hbm : BM = 1
  · simp only [hbm]
    norm_num
  · have hbm0 : ¬ (BM - 1 = 0) := by omega
    rw [if_neg hbm0, if_neg hbm]
    omega

/-- Claim C1 fails as stated: on the spec's own example birth date the
structure holds 960 month nodes, not 961. -/
theorem C1_example_not_961 :
    countMonths (LifeHistory.initiate (fun _ _ => "id") "now"
      (some "2000-06-15")) ≠ 961 := by
  decide

/-- Closed instance of `C1_month_count_amended` at the example birth date. -/
theorem C1_month_count_amended_witness :
    countMonths (LifeHistory.initiate (fun _ _ => "id") "now"
      (some "2000-06-15")) = 960 := by
  have h := C1_month_count_amended (fun _ _ => "id") "now" "2000-06-15" 2000 6
    (by decide) (by decide) (by decide) (by decide)
  simpa using h

/-- `initiate` on a non-empty date string is the parsed-data builder. -/
lemma initiate_some_eq (genId : Nat → Nat → String) (now s : String)
    (BY BM : Nat) (hp : parseBirthDate s = (BY, BM)) (hs0 : ¬ s = "") :
    LifeHistory.initiate genId now (some s) = initiateFrom genId now BY BM := by
  show (if s = "" then []
    else initiateFrom genId now (parseBirthDate s).1 (parseBirthDate s).2) =
      initiateFrom genId now BY BM
  rw [if_neg hs0, hp]

lemma mkDecade_years_getLast (genId : Nat → Nat → String) (now : String)
    (BY BM k : Nat)
    (h : max BY ((BY / 10 + k) * 10) ≤ min (BY + 80) ((BY / 10 + k) * 10 + 9)) :
    (mkDecade genId now BY BM k).years.getLast? =
      some (mkYear genId now BY BM
        (min (BY + 80) ((BY / 10 + k) * 10 + 9))) := by
  unfold mkDecade
  simp only
  obtain ⟨j, hj⟩ : ∃ j, min (BY + 80) ((BY / 10 + k) * 10 + 9) + 1 -
      max BY ((BY / 10 + k) * 10) = j + 1 :=
    ⟨min (BY + 80) ((BY / 10 + k) * 10 + 9) - max BY ((BY / 10 + k) * 10),
      by omega⟩
  rw [hj, map_range_getLast]
  have hx : max BY ((BY / 10 + k) * 10) + j =
      min (BY + 80) ((BY / 10 + k) * 10 + 9) := by omega
  rw [hx]

lemma mkYear_last_months_getLast (genId : Nat → Nat → String) (now : String)
    (BY BM : Nat) (h1 : 1 ≤ BM) :
    (mkYear genId now BY BM (BY + 80)).months.getLast? =
      some (mkMonth genId now (BY + 80)
        (if BM - 1 = 0 then 12 else BM - 1)
        ((if BM - 1 = 0 then 12 else BM - 1) - 1)) := by
  unfold mkYear
  simp only
  have hne : ¬ (BY + 80 = BY) := by omega
  simp only [if_neg hne, eq_self_iff_true, if_true]
  obtain ⟨j, hj⟩ : ∃ j, (if BM - 1 = 0 then 12 else BM - 1) + 1 - 1 = j + 1 :=
    ⟨(if BM - 1 = 0 then 12 else BM - 1) - 1, by split <;> omega⟩
  rw [hj, map_range_getLast]
  have hE1 : 1 ≤ (if BM - 1 = 0 then 12 else BM - 1) := by split <;> omega
  have h1j : 1 + j = (if BM - 1 = 0 then 12 else BM - 1) := by omega
  have hj2 : j = (if BM - 1 = 0 then 12 else BM - 1) - 1 := by omega
  rw [h1j, hj2]

/-! ### Claim C2: the last emitted month -/

/-- Claim C2: the last month of the last year of the last decade lies in
year `birthYear + 80`, with month number `birthMonth - 1`, wrapping to 12
when the birth month is January (the final year then runs through
December rather than being empty). -/
theorem C2_last_month (genId : Nat → Nat → String) (now : String)
    (s : String) (BY BM : Nat)
    (hp : parseBirthDate s = (BY, BM)) (hs0 : ¬ s = "")
    (h1 : 1 ≤ BM) (h2 : BM ≤ 12) :
    ∃ d y m,
      (LifeHistory.initiate genId now (some s)).getLast? = some d ∧
      d.years.getLast? = some y ∧
      y.months.getLast? = some m ∧
      y.year = BY + 80 ∧
      m.month = (if BM = 1 then 12 else BM - 1) := by
  rw [initiate_some_eq genId now s BY BM hp hs0]
  unfold initiateFrom
  obtain ⟨k, hk⟩ : ∃ k, (BY + 80) / 10 + 1 - BY / 10 = k + 1 :=
    ⟨(BY + 80) / 10 - BY / 10, by omega⟩
  rw [hk, map_range_getLast]
  have hys := mkDecade_years_getLast genId now BY BM k (by omega)
  have hmin : min (BY + 80) ((BY / 10 + k) * 10 + 9) = BY + 80 := by omega
  rw [hmin] at hys
  have hms := mkYear_last_months_getLast genId now BY BM h1
  have hEE : (if BM - 1 = 0 then 12 else BM - 1) =
      (if BM = 1 then 12 else BM - 1) := by
    by_cases h : BM = 1
    · simp [h]
    · have h0 : ¬ (BM - 1 = 0) := by omega
      simp [h, h0]
  refine ⟨mkDecade genId now BY BM k, mkYear genId now BY BM (BY + 80),
    mkMonth genId now (BY + 80) (if BM - 1 = 0 then 12 else BM - 1)
      ((if BM - 1 = 0 then 12 else BM - 1) - 1),
    rfl, hys, hms, rfl, ?_⟩
  show (if BM - 1 = 0 then 12 else BM - 1) = (if BM = 1 then 12 else BM - 1)
  exact hEE

/-- Closed instance of `C2_last_month` at the example birth date. -/
theorem C2_last_month_witness :
    ∃ d y m,
      (LifeHistory.initiate (fun _ _ => "id") "now" (some "2000-06-15")).getLast?
        = some d ∧
      d.years.getLast? = some y ∧
      y.months.getLast? = some m ∧
      y.year = 2000 + 80 ∧
      m.month = (if 6 = 1 then 12 else 6 - 1) :=
  C2_last_month (fun _ _ => "id") "now" "2000-06-15" 2000 6
    (by decide) (by decide) (by decide) (by decide)

lemma allPairs_initiateFrom (genId : Nat → Nat → String) (now : String)
    (BY BM : Nat) :
    allPairs (initiateFrom genId now BY BM) =
      (List.range' BY 81).flatMap (fun year =>
        (mkYear genId now BY BM year).months.map (fun m => (year, m.month))) := by
  unfold allPairs
  have hassoc : ∀ lh : MonthlyLifeHistory,
      lh.flatMap (fun d => d.years.flatMap (fun y =>
        y.months.map (fun m => (y.year, m.month)))) =
      (lh.flatMap (fun d => d.years)).flatMap (fun y =>
        y.months.map (fun m => (y.year, m.month))) := by
    intro lh
    induction lh with
    | nil => rfl
    | cons d t ih => simp only [List.flatMap_cons, List.flatMap_append, ih]
  rw [hassoc, initiateFrom_years, List.flatMap_map]
  rfl

/-! ### Claim C3: the first emitted month and strict ordering -/

/-- Claim C3: the first emitted month is exactly (birthYear, birthMonth),
and every other emitted (year, month) pair is strictly greater in
lexicographic order, so no emitted month precedes the birth month. -/
theorem C3_first_month (genId : Nat → Nat → String) (now : String)
    (s : String) (BY BM : Nat)
    (hp : parseBirthDate s = (BY, BM)) (hs0 : ¬ s = "")
    (h1 : 1 ≤ BM) (h2 : BM ≤ 12) :
    ∃ rest,
      allPairs (LifeHistory.initiate genId now (some s)) = (BY, BM) :: rest ∧
      ∀ p ∈ rest, pairLt (BY, BM) p := by
  rw [initiate_some_eq genId now s BY BM hp hs0, allPairs_initiateFrom]
  have hsplit : List.range' BY 81 = BY :: List.range' (BY + 1) 80 := by
    rw [show (81 : Nat) = 80 + 1 from rfl, List.range'_succ]
  rw [hsplit]
  simp only [List.flatMap_cons]
  have hfirst : (mkYear genId now BY BM BY).months.map
      (fun m => (BY, m.month)) =
      (BY, BM) :: (List.range' (BM + 1) (12 - BM)).map (fun mo => (BY, mo)) := by
    unfold mkYear
    simp only
    have hne : ¬ (BY = BY + 80) := by omega
    simp only [if_neg hne, eq_self_iff_true, if_true]
    rw [List.map_map]
    have hcomp : ((fun m : LifeHistoryMonth => (BY, m.month)) ∘
        (fun monthIndex => mkMonth genId now BY (BM + monthIndex) monthIndex)) =
        fun monthIndex => (BY, BM + monthIndex) := rfl
    rw [hcomp]
    have hr : (List.range' (BM + 1) (12 - BM)).map (fun mo => (BY, mo)) =
        (List.range (12 - BM)).map (fun monthIndex => (BY, BM + 1 + monthIndex)) := by
      rw [List.range'_eq_map_range, List.map_map]
      rfl
    rw [hr, show 12 + 1 - BM = (12 - BM) + 1 by omega, List.range_succ_eq_map]
    simp only [List.map_cons, List.map_map]
    congr 1
    apply List.map_congr_left
    intro monthIndex _
    simp only [Function.comp_apply, Nat.succ_eq_add_one]
    congr 1
    omega
  rw [hfirst, List.cons_append]
  refine ⟨(List.range' (BM + 1) (12 - BM)).map (fun mo => (BY, mo)) ++
    (List.range' (BY + 1) 80).flatMap (fun year =>
      (mkYear genId now BY BM year).months.map (fun m => (year, m.month))),
    rfl, ?_⟩
  intro p hp2
  rcases List.mem_append.mp hp2 with hp3 | hp3
  · obtain ⟨mo, hmo, hpe⟩ := List.mem_map.mp hp3
    rw [List.mem_range'_1] at hmo
    rw [← hpe]
    exact Or.inr ⟨rfl, by omega⟩
  · obtain ⟨year, hyear, hpm⟩ := List.mem_flatMap.mp hp3
    obtain ⟨m, hm, hpe⟩ := List.mem_map.mp hpm
    rw [List.mem_range'_1] at hyear
    rw [← hpe]
    exact Or.inl (by omega)

/-- Closed instance of `C3_first_month` at the example birth date. -/
theorem C3_first_month_witness :
    ∃ rest,
      allPairs (LifeHistory.initiate (fun _ _ => "id") "now" (some "2000-06-15"))
        = (2000, 6) :: rest ∧
      ∀ p ∈ rest, pairLt (2000, 6) p :=
  C3_first_month (fun _ _ => "id") "now" "2000-06-15" 2000 6
    (by decide) (by decide) (by decide) (by decide)
